import Mathlib

/-!
Shallow embedding of the training-loop orchestration code of this repository:
the VQ-VAE trainer (src/VAEs/vq-vae/trainers/vq_vae_train.py) and the
Tacotron2 trainer (src/speech-synthesis/TTS/tacotron2/train.py).
Scalar tensors and python floats are modelled as rationals; the framework
calls (forward, backward, all_reduce, optimizer update, monitors) are
modelled as events in an explicit trace, with their scalar effects made
explicit where the claims need them.
-/

namespace VQVAE

/-- Configuration of VQVAEtrainer, read in its init from the data loaders,
the communicator and the config dict. -/
structure Config where
  size : ℕ
  batch_size : ℕ
  val_size : ℕ
  val_batch_size : ℕ
  n_procs : ℕ
  rank : ℕ
  weight_decay : ℚ
  learning_rate_decay_epochs : List ℕ
  learning_rate_decay_factor : ℚ
  dataset_name : String

/-- Embeds int(np.ceil(a / b / c)) on nonnegative integers: real division,
ceiling, truncation to int. -/
def npCeilDivDiv (a b c : ℕ) : ℕ :=
  (Int.toNat ⌈(a : ℚ) / (b : ℚ) / (c : ℚ)⌉)

/-- self.iterations_per_epoch = int(np.ceil(size / batch_size / n_procs)),
line 23 of vq_vae_train.py. -/
def iterations_per_epoch (c : Config) : ℕ :=
  npCeilDivDiv c.size c.batch_size c.n_procs

/-- self.val_iterations_per_epoch, line 35 of vq_vae_train.py (set for
datasets other than imagenet). -/
def val_iterations_per_epoch (c : Config) : ℕ :=
  npCeilDivDiv c.val_size c.val_batch_size c.n_procs

/-- Number of loop iterations of train: the trange argument on line 84 is
iterations_per_epoch // n_procs (integer floor division). -/
def trainLoopCount (c : Config) : ℕ :=
  iterations_per_epoch c / c.n_procs

/-- Number of loop iterations of validate: the trange argument on line 119
is val_iterations_per_epoch, with no further division. -/
def valLoopCount (c : Config) : ℕ :=
  val_iterations_per_epoch c

end VQVAE

namespace VQVAE

/-- Bridging lemma: for positive divisors, the float ceiling division of the
source equals ceiling division on naturals. -/
theorem npCeilDivDiv_eq (a b c : ℕ) (hb : 0 < b) (hc : 0 < c) :
    npCeilDivDiv a b c = (a + b * c - 1) / (b * c) := by
  have hm : 0 < b * c := Nat.mul_pos hb hc
  have hmq : (0 : ℚ) < ((b * c : ℕ) : ℚ) := by exact_mod_cast hm
  rw [npCeilDivDiv, Int.ceil_toNat, div_div, ← Nat.cast_mul,
    ← Nat.ceilDiv_eq_add_pred_div]
  refine le_antisymm ?_ ?_
  · rw [Nat.ceil_le, div_le_iff₀ hmq]
    have h := le_smul_ceilDiv (b := a) hm
    rw [smul_eq_mul] at h
    exact_mod_cast h.trans_eq (Nat.mul_comm _ _)
  · rw [ceilDiv_le_iff_le_smul hm, smul_eq_mul]
    have h := Nat.le_ceil ((a : ℚ) / ((b * c : ℕ) : ℚ))
    rw [div_le_iff₀ hmq] at h
    have h2 : a ≤ ⌈(a : ℚ) / ((b * c : ℕ) : ℚ)⌉₊ * (b * c) := by exact_mod_cast h
    exact h2.trans_eq (Nat.mul_comm _ _)

end VQVAE

namespace VQVAE

/-- Framework and driver actions performed by the VQ-VAE trainer, listed in
program order in the traces below. -/
inductive Event
  | fetchTrain
  | fetchVal
  | forward (test : Bool)
  | logImage (train : Bool)
  | setParameters
  | zeroGrad
  | backward
  | allReduceGrads (division : Bool) (inplace : Bool)
  | weightDecay
  | update
  | setLearningRate
  | logLoss (train : Bool)
  deriving DecidableEq, Repr

/-- Body of the training loop of VQVAEtrainer.train (lines 90-113): fetch,
forward, on the first iteration save the reconstruction image, accumulate
the loss, register parameters, zero gradients, backward, all_reduce of all
parameter gradients with division=False and inplace=True, weight decay,
optimizer update. -/
def trainBatchEvents (i : ℕ) : List Event :=
  [Event.fetchTrain, Event.forward false]
    ++ (if i = 0 then [Event.logImage true] else [])
    ++ [Event.setParameters, Event.zeroGrad, Event.backward,
        Event.allReduceGrads false true, Event.weightDecay, Event.update]

/-- Body of the validation loop of VQVAEtrainer.validate (lines 122-132):
fetch and forward with test=True only. -/
def valBatchEvents : List Event :=
  [Event.fetchVal, Event.forward true]

/-- Mutable state of the trainer: the solver learning rate, the model
parameters and the solver internal state, the last two abstract. -/
structure Trainer (P S : Type) where
  cfg : Config
  lr : ℚ
  params : P
  solverState : S

/-- One call of VQVAEtrainer.train (lines 83-116). The loop runs
iterations_per_epoch // n_procs times (the trange argument on line 84).
Per-batch loss values loss.d are supplied by the oracle losses; the
parameter and solver-state effects of the framework calls in one loop
body are supplied by the oracle step functions pStep and sStep, applied
once per iteration. Returns the trainer state after the epoch, the
epoch loss reported to the monitor (the accumulated sum divided by
iterations_per_epoch, line 115), and the event trace. -/
def train {P S : Type} (t : Trainer P S) (losses : ℕ → ℚ) (pStep : P → P)
    (sStep : S → S) (epoch : ℕ) : Trainer P S × ℚ × List Event :=
  let n := trainLoopCount t.cfg
  let t1 : Trainer P S :=
    if epoch ∈ t.cfg.learning_rate_decay_epochs then
      { t with lr := t.lr * t.cfg.learning_rate_decay_factor }
    else t
  let epoch_loss : ℚ := ∑ i ∈ Finset.range n, losses i
  let avg_epoch_loss : ℚ := epoch_loss / (iterations_per_epoch t.cfg : ℚ)
  let events : List Event :=
    (if epoch ∈ t.cfg.learning_rate_decay_epochs then [Event.setLearningRate] else [])
      ++ (List.range n).flatMap trainBatchEvents ++ [Event.logLoss true]
  ({ t1 with params := pStep^[n] t1.params, solverState := sStep^[n] t1.solverState },
    avg_epoch_loss, events)

/-- One call of VQVAEtrainer.validate (lines 118-136): the loop runs
val_iterations_per_epoch times (line 119), accumulates the loss, and
divides the sum by iterations_per_epoch, the TRAINING iteration count
(line 134). The trainer state (parameters, solver state, learning rate)
is returned untouched. -/
def validate {P S : Type} (t : Trainer P S) (losses : ℕ → ℚ) :
    Trainer P S × ℚ × List Event :=
  let n := valLoopCount t.cfg
  let epoch_loss : ℚ := ∑ i ∈ Finset.range n, losses i
  let avg_epoch_loss : ℚ := epoch_loss / (iterations_per_epoch t.cfg : ℚ)
  (t, avg_epoch_loss,
    (List.range n).flatMap (fun _ => valBatchEvents)
      ++ [Event.logLoss false, Event.logImage false])

/-- VQVAEtrainer.convert_to_var (lines 51-55) on a flat batch of scalars:
if not every entry is strictly below 1, divide by 255; then rescale every
entry by (x - 0.5) / 0.5. -/
def convert_to_var (img : List ℚ) : List ℚ :=
  let img1 := if img.all (fun x => decide (x < 1)) then img else img.map (· / 255)
  img1.map (fun x => (x - 1/2) / (1/2))

/-- Event classifiers used to inspect traces. -/
def isAllReduceGrads : Event → Bool
  | Event.allReduceGrads _ _ => true
  | _ => false

def isUpdate : Event → Bool
  | Event.update => true
  | _ => false

def isBackward : Event → Bool
  | Event.backward => true
  | _ => false

def isParamMutating : Event → Bool
  | Event.backward => true
  | Event.allReduceGrads _ _ => true
  | Event.weightDecay => true
  | Event.update => true
  | _ => false

end VQVAE

namespace Tacotron2

/-- Framework and driver actions performed by the Tacotron2 trainer. -/
inductive Event
  | zeroGrad
  | streamSync
  | fetch
  | forward
  | backward
  | monitorUpdate (name : String)
  | allReduceGrads (division : Bool) (inplace : Bool)
  | addStreamEvent
  | update
  | allReduceLoss (division : Bool) (inplace : Bool)
  | divideLossBySize
  | monitorInfo
  | saveArtifacts
  | zeroLoss
  deriving DecidableEq, Repr

/-- The hyper-parameters and collaborator attributes that
Tacotron2Trainer reads in the embedded methods. -/
structure HParams where
  batch_size : ℕ
  n_procs : ℕ
  rank : ℕ
  epochs_per_checkpoint : ℕ
  valid_size : ℕ

/-- Trace of Tacotron2Trainer.train_on_batch (lines 80-97): zero_grad,
stream synchronize when n_procs > 1, fetch, forward, backward, three
monitor updates, then when n_procs > 1 an all_reduce of the gradients
with division=True and inplace=False followed by a stream event, then
the optimizer update. -/
def train_on_batch_events (hp : HParams) : List Event :=
  [Event.zeroGrad]
    ++ (if 1 < hp.n_procs then [Event.streamSync] else [])
    ++ [Event.fetch, Event.forward, Event.backward,
        Event.monitorUpdate "train/l_mel", Event.monitorUpdate "train/l_gat",
        Event.monitorUpdate "train/l_net"]
    ++ (if 1 < hp.n_procs then
          [Event.allReduceGrads true false, Event.addStreamEvent] else [])
    ++ [Event.update]

/-- Tacotron2Trainer.valid_on_batch (lines 99-110): the loss accumulator
gains l_net.d * batch_size; the trace has no backward, no gradient
reduction and no update. Returns the new accumulator and the trace. -/
def valid_on_batch (hp : HParams) (loss l_net : ℚ) : ℚ × List Event :=
  (loss + l_net * (hp.batch_size : ℚ),
    (if 1 < hp.n_procs then [Event.streamSync] else [])
      ++ [Event.fetch, Event.forward,
          Event.monitorUpdate "valid/l_mel", Event.monitorUpdate "valid/l_gat",
          Event.monitorUpdate "valid/l_net"])

/-- Tacotron2Trainer.callback_on_epoch_end (lines 112-137). loss is this
worker's accumulator; othersSum is the sum of the accumulators of the
other workers, which the all_reduce call with division=True combines into
the average across the n_procs workers. The accumulator is then divided
by the size of the valid dataloader, reported on rank 0, and finally
zeroed. Returns the final accumulator value, the reported loss value,
and the trace. -/
def callback_on_epoch_end (hp : HParams) (cur_epoch : ℕ) (loss othersSum : ℚ) :
    ℚ × ℚ × List Event :=
  let loss1 : ℚ :=
    if 1 < hp.n_procs then (loss + othersSum) / (hp.n_procs : ℚ) else loss
  let loss2 : ℚ := loss1 / (hp.valid_size : ℚ)
  let rank0Events : List Event :=
    if hp.rank = 0 then
      [Event.monitorInfo]
        ++ (if cur_epoch % hp.epochs_per_checkpoint = 0 then
              [Event.saveArtifacts] else [])
    else []
  (0, loss2,
    (if 1 < hp.n_procs then [Event.allReduceLoss true false] else [])
      ++ [Event.divideLossBySize] ++ rank0Events ++ [Event.zeroLoss])

/-- Event classifiers used to inspect traces. -/
def isAllReduceGrads : Event → Bool
  | Event.allReduceGrads _ _ => true
  | _ => false

def isUpdate : Event → Bool
  | Event.update => true
  | _ => false

def isParamMutating : Event → Bool
  | Event.backward => true
  | Event.allReduceGrads _ _ => true
  | Event.update => true
  | _ => false

/-- The ten graph handles retained by Tacotron2Trainer.update_graph. -/
inductive Handle
  | xTxt
  | xMel
  | xGat
  | oMel
  | oMelP
  | oGat
  | oAtt
  | lMel
  | lGat
  | lNet
  deriving DecidableEq, Repr

/-- The placeholder dictionary built on lines 73-77, in source order. -/
def graphBindings : List (String × Handle) :=
  [("x_mel", Handle.xMel), ("x_gat", Handle.xGat), ("x_txt", Handle.xTxt),
   ("o_mel", Handle.oMel), ("o_mel_p", Handle.oMelP), ("o_gat", Handle.oGat),
   ("o_att", Handle.oAtt),
   ("l_mel", Handle.lMel), ("l_gat", Handle.lGat), ("l_net", Handle.lNet)]

/-- The part of the trainer state that update_graph touches: the
model.training flag and the placeholder mapping from mode key to the
bound dictionary. -/
structure GraphState where
  training : Bool
  placeholder : String → Option (List (String × Handle))

/-- Tacotron2Trainer.update_graph (lines 42-77): assert the key is train
or valid (otherwise fail before mutating anything), set model.training to
(key != valid), build the graph, and replace placeholder[key] wholesale
with the dictionary of ten handles. -/
def update_graph (st : GraphState) (key : String) : Except String GraphState :=
  if key = "train" ∨ key = "valid" then
    Except.ok
      { training := key ≠ "valid",
        placeholder := fun k =>
          if k = key then some graphBindings else st.placeholder k }
  else Except.error "AssertionError"

end Tacotron2

namespace Checkpoint

/-- Contents of a file written by a checkpoint: either the serialized
parameters or the serialized solver states. -/
inductive Blob (P S : Type)
  | params (p : P)
  | solver (s : S)

/-- The state that save_checkpoint and load_checkpoint interact with: the
process-wide parameter store, the solver state, and the filesystem as a
map from paths (lists of path components, joined by os.path.join) to file
contents. -/
structure NNState (P S : Type) where
  params : P
  solverStates : S
  fs : List String → Option (Blob P S)

/-- Write one file. -/
def writeFile {P S : Type} (fs : List String → Option (Blob P S))
    (path : List String) (b : Blob P S) : List String → Option (Blob P S) :=
  fun q => if q = path then some b else fs q

/-- VQVAEtrainer.save_checkpoint (lines 41-45): make the directory
path/epoch_<epoch>, save the parameters into params.h5 inside it, then
the solver states into solver.h5 inside it. -/
def save_checkpoint {P S : Type} (st : NNState P S) (path : List String)
    (epoch : ℕ) : NNState P S :=
  let file_name := path ++ ["epoch_" ++ toString epoch]
  { st with
    fs := writeFile (writeFile st.fs (file_name ++ ["params.h5"]) (Blob.params st.params))
            (file_name ++ ["solver.h5"]) (Blob.solver st.solverStates) }

/-- VQVAEtrainer.load_checkpoint (lines 47-49): read params.h5 and
solver.h5 under the given directory and restore the parameter store and
the solver states from them; fails if either file is missing or holds
the wrong kind of data. -/
def load_checkpoint {P S : Type} (st : NNState P S) (path : List String) :
    Option (NNState P S) :=
  match st.fs (path ++ ["params.h5"]), st.fs (path ++ ["solver.h5"]) with
  | some (Blob.params p), some (Blob.solver s) =>
      some { st with params := p, solverStates := s }
  | _, _ => none

end Checkpoint

namespace Tacotron2

def isAllReduceLoss : Event → Bool
  | Event.allReduceLoss _ _ => true
  | _ => false

end Tacotron2

/-- C7: the learning rate after one call of VQVAEtrainer.train on an epoch
equals the rate before it multiplied by the configured decay factor exactly
when the epoch is in the configured decay-epoch list, and is unchanged by
any epoch not in that list. -/
theorem C7_learning_rate_decay {P S : Type} (t : VQVAE.Trainer P S)
    (losses : ℕ → ℚ) (pStep : P → P) (sStep : S → S) (epoch : ℕ) :
    (VQVAE.train t losses pStep sStep epoch).1.lr =
      if epoch ∈ t.cfg.learning_rate_decay_epochs then
        t.lr * t.cfg.learning_rate_decay_factor
      else t.lr := by
  simp only [VQVAE.train]
  split <;> rfl

/-- C8: save_checkpoint writes the parameter state and the solver state
into the two files params.h5 and solver.h5 (two distinct paths) inside
the directory epoch_<epoch> under the base path, and load_checkpoint on
that directory restores parameter and solver state equal to the state
immediately before saving. -/
theorem C8_checkpoint_round_trip {P S : Type} (st : Checkpoint.NNState P S)
    (path : List String) (epoch : ℕ) :
    ((Checkpoint.save_checkpoint st path epoch).fs
        (path ++ ["epoch_" ++ toString epoch] ++ ["params.h5"]) =
      some (Checkpoint.Blob.params st.params)) ∧
    ((Checkpoint.save_checkpoint st path epoch).fs
        (path ++ ["epoch_" ++ toString epoch] ++ ["solver.h5"]) =
      some (Checkpoint.Blob.solver st.solverStates)) ∧
    (path ++ ["epoch_" ++ toString epoch] ++ ["params.h5"] ≠
      path ++ ["epoch_" ++ toString epoch] ++ ["solver.h5"]) ∧
    (∃ st2, Checkpoint.load_checkpoint (Checkpoint.save_checkpoint st path epoch)
        (path ++ ["epoch_" ++ toString epoch]) = some st2 ∧
      st2.params = st.params ∧ st2.solverStates = st.solverStates) := by
  have hne : path ++ ["epoch_" ++ toString epoch] ++ ["params.h5"] ≠
      path ++ ["epoch_" ++ toString epoch] ++ ["solver.h5"] := by
    intro h
    have h2 := List.append_cancel_left h
    simp at h2
  refine ⟨?_, ?_, hne, ?_⟩
  · simp [Checkpoint.save_checkpoint, Checkpoint.writeFile, hne]
  · simp [Checkpoint.save_checkpoint, Checkpoint.writeFile]
  · refine ⟨Checkpoint.save_checkpoint st path epoch, ?_, rfl, rfl⟩
    simp [Checkpoint.load_checkpoint, Checkpoint.save_checkpoint,
      Checkpoint.writeFile, List.append_assoc, hne]

/-- C10: update_graph fails with an assertion error for every key other
than train or valid; for those two keys it succeeds, replaces
placeholder[key] wholesale with the dictionary of exactly the ten named
handles, leaves every other placeholder entry alone, and sets
model.training to true exactly when the key is not valid. -/
theorem C10_update_graph (st : Tacotron2.GraphState) (key : String) :
    (key ≠ "train" → key ≠ "valid" →
      Tacotron2.update_graph st key = Except.error "AssertionError") ∧
    (∀ st2, Tacotron2.update_graph st key = Except.ok st2 →
      st2.placeholder key = some Tacotron2.graphBindings ∧
      (st2.training = true ↔ key ≠ "valid") ∧
      ∀ k, k ≠ key → st2.placeholder k = st.placeholder k) ∧
    (Tacotron2.graphBindings.map Prod.fst).Perm
      ["x_txt", "x_mel", "x_gat", "o_mel", "o_mel_p", "o_gat", "o_att",
       "l_mel", "l_gat", "l_net"] ∧
    ((key = "train" ∨ key = "valid") →
      ∃ st2, Tacotron2.update_graph st key = Except.ok st2) := by
  refine ⟨?_, ?_, by decide, ?_⟩
  · intro h1 h2
    rw [Tacotron2.update_graph, if_neg]
    rintro (h | h) <;> simp_all
  · intro st2 h
    rw [Tacotron2.update_graph] at h
    split at h
    · cases h
      refine ⟨by simp, by simp, ?_⟩
      intro k hk
      simp [hk]
    · cases h
  · intro h
    rw [Tacotron2.update_graph, if_pos h]
    exact ⟨_, rfl⟩

/-- Initial graph state used by the C10 witness: model not in training
mode, no placeholder bound yet. -/
def gs0 : Tacotron2.GraphState :=
  { training := false, placeholder := fun _ => none }

/-- C10 witness: the theorem applied at a concrete state and concrete
keys, with every hypothesis discharged. -/
theorem C10_update_graph_witness :
    Tacotron2.update_graph gs0 "mode" = Except.error "AssertionError" ∧
    ∀ st2, Tacotron2.update_graph gs0 "train" = Except.ok st2 →
      st2.placeholder "train" = some Tacotron2.graphBindings ∧
      (st2.training = true ↔ "train" ≠ "valid") ∧
      ∀ k, k ≠ "train" → st2.placeholder k = gs0.placeholder k :=
  ⟨(C10_update_graph gs0 "mode").1 (by decide) (by decide),
   (C10_update_graph gs0 "train").2.1⟩

namespace VQVAE

/-- Each training batch body contains exactly one data fetch. -/
theorem count_fetchTrain_batch (i : ℕ) :
    (trainBatchEvents i).count Event.fetchTrain = 1 := by
  by_cases h : i = 0 <;> simp [trainBatchEvents, h, List.count_append]

/-- The concatenated training loop trace contains one fetch per executed
loop iteration. -/
theorem count_fetchTrain_range (n : ℕ) :
    ((List.range n).flatMap trainBatchEvents).count Event.fetchTrain = n := by
  induction n with
  | zero => rfl
  | succ k ih =>
      rw [List.range_succ, List.flatMap_append, List.count_append, ih]
      simp [count_fetchTrain_batch]

/-- The number of executed batch iterations of one call of train, read
off its trace, is the trange argument iterations_per_epoch // n_procs. -/
theorem count_fetchTrain_train {P S : Type} (t : Trainer P S) (losses : ℕ → ℚ)
    (pStep : P → P) (sStep : S → S) (epoch : ℕ) :
    (train t losses pStep sStep epoch).2.2.count Event.fetchTrain =
      trainLoopCount t.cfg := by
  show (List.count _ (_ ++ _ ++ _)) = _
  rw [List.count_append, List.count_append, count_fetchTrain_range]
  split <;> simp

/-- The loss value reported by train: accumulated sum over the executed
iterations, divided by iterations_per_epoch. -/
theorem train_reported {P S : Type} (t : Trainer P S) (losses : ℕ → ℚ)
    (pStep : P → P) (sStep : S → S) (epoch : ℕ) :
    (train t losses pStep sStep epoch).2.1 =
      (∑ i ∈ Finset.range (trainLoopCount t.cfg), losses i) /
        (iterations_per_epoch t.cfg : ℚ) := rfl

/-- The number of executed validation iterations of one call of
validate, read off its trace, is val_iterations_per_epoch. -/
theorem count_fetchVal_validate {P S : Type} (t : Trainer P S) (losses : ℕ → ℚ) :
    (validate t losses).2.2.count Event.fetchVal = valLoopCount t.cfg := by
  show (List.count _ (_ ++ _)) = _
  rw [List.count_append]
  have h : ∀ n : ℕ, ((List.range n).flatMap fun _ => valBatchEvents).count
      Event.fetchVal = n := by
    intro n
    induction n with
    | zero => rfl
    | succ k ih =>
        rw [List.range_succ, List.flatMap_append, List.count_append, ih]
        rfl
  rw [h]
  rfl

/-- The loss value reported by validate: accumulated sum over the
executed validation iterations, divided by the TRAINING iteration count
iterations_per_epoch. -/
theorem validate_reported {P S : Type} (t : Trainer P S) (losses : ℕ → ℚ) :
    (validate t losses).2.1 =
      (∑ i ∈ Finset.range (valLoopCount t.cfg), losses i) /
        (iterations_per_epoch t.cfg : ℚ) := rfl

/-- Failing input for the training-loop iteration claims: 8 training
images, batch size 2, 2 worker processes, a 4-image validation set. -/
def cfgBug : Config :=
  { size := 8, batch_size := 2, val_size := 4, val_batch_size := 2,
    n_procs := 2, rank := 0, weight_decay := 0,
    learning_rate_decay_epochs := [], learning_rate_decay_factor := 1,
    dataset_name := "cifar10" }

/-- A trainer over cfgBug with trivial parameter and solver state. -/
def tBug : Trainer Unit Unit :=
  { cfg := cfgBug, lr := 1, params := (), solverState := () }

theorem cfgBug_iterations : iterations_per_epoch cfgBug = 2 := by
  show npCeilDivDiv 8 2 2 = 2
  rw [npCeilDivDiv_eq 8 2 2 (by decide) (by decide)]

theorem cfgBug_loop : trainLoopCount cfgBug = 1 := by
  show iterations_per_epoch cfgBug / 2 = 1
  rw [cfgBug_iterations]

/-- Failing input for the validation divisor claim: 8 training images and
a 4-image validation set, batch size 2, a single worker, so the training
iteration count is 4 and the validation iteration count is 2. -/
def cfgVal : Config :=
  { size := 8, batch_size := 2, val_size := 4, val_batch_size := 2,
    n_procs := 1, rank := 0, weight_decay := 0,
    learning_rate_decay_epochs := [], learning_rate_decay_factor := 1,
    dataset_name := "cifar10" }

/-- A trainer over cfgVal with trivial parameter and solver state. -/
def tVal : Trainer Unit Unit :=
  { cfg := cfgVal, lr := 1, params := (), solverState := () }

theorem cfgVal_iterations : iterations_per_epoch cfgVal = 4 := by
  show npCeilDivDiv 8 2 1 = 4
  rw [npCeilDivDiv_eq 8 2 1 (by decide) (by decide)]

theorem cfgVal_valLoop : valLoopCount cfgVal = 2 := by
  show npCeilDivDiv 4 2 1 = 2
  rw [npCeilDivDiv_eq 4 2 1 (by decide) (by decide)]

end VQVAE

/-- C1 (code bug): with 8 training images, batch size 2 and 2 workers,
one call of train executes exactly one batch iteration (one fetch in its
trace, since the loop bound is iterations_per_epoch // n_procs) but
divides the accumulated loss sum by iterations_per_epoch = 2: with every
per-batch loss equal to 1 it reports 1/2, not the arithmetic mean 1 of
the per-batch losses over the iterations actually executed. -/
theorem C1_epoch_loss_divisor_mismatch :
    (VQVAE.train VQVAE.tBug (fun _ => 1) id id 0).2.2.count
        VQVAE.Event.fetchTrain = 1 ∧
    VQVAE.iterations_per_epoch VQVAE.cfgBug = 2 ∧
    (VQVAE.train VQVAE.tBug (fun _ => 1) id id 0).2.1 = 1 / 2 ∧
    (VQVAE.train VQVAE.tBug (fun _ => 1) id id 0).2.1 ≠
      (∑ i ∈ Finset.range 1, (1 : ℚ)) / ((1 : ℕ) : ℚ) := by
  have hl : VQVAE.trainLoopCount VQVAE.tBug.cfg = 1 := VQVAE.cfgBug_loop
  have hi : VQVAE.iterations_per_epoch VQVAE.tBug.cfg = 2 :=
    VQVAE.cfgBug_iterations
  have hc : (VQVAE.train VQVAE.tBug (fun _ => 1) id id 0).2.2.count
      VQVAE.Event.fetchTrain = 1 := by
    rw [VQVAE.count_fetchTrain_train, hl]
  refine ⟨hc, VQVAE.cfgBug_iterations, ?_, ?_⟩
  · rw [VQVAE.train_reported, hl, hi, Finset.sum_range_one]
    norm_num
  · rw [VQVAE.train_reported, hl, hi, Finset.sum_range_one]
    norm_num

/-- C2 (code bug): with 8 training images, batch size 2 and 2 workers,
one call of train executes one batch iteration, not the
ceil(size / batch_size / n_procs) = 2 iterations the claim states,
because the loop bound divides iterations_per_epoch by n_procs a second
time. -/
theorem C2_train_iteration_count_mismatch :
    (VQVAE.train VQVAE.tBug (fun _ => 1) id id 0).2.2.count
        VQVAE.Event.fetchTrain = 1 ∧
    VQVAE.iterations_per_epoch VQVAE.cfgBug = 2 ∧
    (VQVAE.train VQVAE.tBug (fun _ => 1) id id 0).2.2.count
        VQVAE.Event.fetchTrain ≠ VQVAE.iterations_per_epoch VQVAE.cfgBug := by
  have hl : VQVAE.trainLoopCount VQVAE.tBug.cfg = 1 := VQVAE.cfgBug_loop
  have hc : (VQVAE.train VQVAE.tBug (fun _ => 1) id id 0).2.2.count
      VQVAE.Event.fetchTrain = 1 := by
    rw [VQVAE.count_fetchTrain_train, hl]
  refine ⟨hc, VQVAE.cfgBug_iterations, ?_⟩
  rw [hc, VQVAE.cfgBug_iterations]
  decide

/-- C3 (code bug): with a 4-image validation set, batch size 2 and one
worker (so 2 validation iterations) but 8 training images (so 4 training
iterations), validate executes 2 iterations yet divides the accumulated
loss by the training iteration count 4: with every per-batch loss equal
to 1 it reports 1/2, not the mean 1 over the validation iterations. -/
theorem C3_validate_divisor_mismatch :
    (VQVAE.validate VQVAE.tVal (fun _ => 1)).2.2.count
        VQVAE.Event.fetchVal = 2 ∧
    VQVAE.iterations_per_epoch VQVAE.cfgVal = 4 ∧
    (VQVAE.validate VQVAE.tVal (fun _ => 1)).2.1 = 1 / 2 ∧
    (VQVAE.validate VQVAE.tVal (fun _ => 1)).2.1 ≠
      (∑ i ∈ Finset.range 2, (1 : ℚ)) / ((2 : ℕ) : ℚ) := by
  have hl : VQVAE.valLoopCount VQVAE.tVal.cfg = 2 := VQVAE.cfgVal_valLoop
  have hi : VQVAE.iterations_per_epoch VQVAE.tVal.cfg = 4 :=
    VQVAE.cfgVal_iterations
  have hc : (VQVAE.validate VQVAE.tVal (fun _ => 1)).2.2.count
      VQVAE.Event.fetchVal = 2 := by
    rw [VQVAE.count_fetchVal_validate, hl]
  refine ⟨hc, VQVAE.cfgVal_iterations, ?_, ?_⟩
  · rw [VQVAE.validate_reported, hl, hi]
    norm_num [Finset.sum_range_succ]
  · rw [VQVAE.validate_reported, hl, hi]
    norm_num [Finset.sum_range_succ]

/-- Concrete Tacotron2 hyper-parameters with two worker processes. -/
def hpTwo : Tacotron2.HParams :=
  { batch_size := 4, n_procs := 2, rank := 0, epochs_per_checkpoint := 1,
    valid_size := 10 }

/-- Concrete Tacotron2 hyper-parameters with a single worker process. -/
def hpOne : Tacotron2.HParams :=
  { batch_size := 4, n_procs := 1, rank := 0, epochs_per_checkpoint := 1,
    valid_size := 10 }

/-- C4 counterexample: in the Tacotron2 driver with two workers, the
gradient all-reduce of a training batch carries division=True (average)
and inplace=False, and no sum-reduction (division=False) occurs, so the
claim that both drivers combine gradients by sum is false. -/
theorem C4_tacotron2_reduce_is_average :
    (Tacotron2.train_on_batch_events hpTwo).filter Tacotron2.isAllReduceGrads =
      [Tacotron2.Event.allReduceGrads true false] ∧
    Tacotron2.Event.allReduceGrads false true ∉
      Tacotron2.train_on_batch_events hpTwo := by
  decide

/-- C4 amended: in multi-worker mode every training batch performs
exactly one all-reduce of the parameter gradients and exactly one
optimizer update, the all-reduce coming first; the VQ-VAE driver
reduces with division=False (sum) and inplace=True, while the Tacotron2
driver reduces with division=True (average) and inplace=False. -/
theorem C4_one_gradient_all_reduce_per_batch (hp : Tacotron2.HParams)
    (i : ℕ) (h : 1 < hp.n_procs) :
    (Tacotron2.train_on_batch_events hp).filter
        (fun e => Tacotron2.isAllReduceGrads e || Tacotron2.isUpdate e) =
      [Tacotron2.Event.allReduceGrads true false, Tacotron2.Event.update] ∧
    (VQVAE.trainBatchEvents i).filter
        (fun e => VQVAE.isAllReduceGrads e || VQVAE.isUpdate e) =
      [VQVAE.Event.allReduceGrads false true, VQVAE.Event.update] := by
  constructor
  · simp [Tacotron2.train_on_batch_events, if_pos h,
      Tacotron2.isAllReduceGrads, Tacotron2.isUpdate]
  · by_cases hi : i = 0 <;>
      simp [VQVAE.trainBatchEvents, hi, VQVAE.isAllReduceGrads, VQVAE.isUpdate]

/-- C4 witness: the amended statement at two workers and the first
batch. -/
theorem C4_one_gradient_all_reduce_per_batch_witness :
    1 < hpTwo.n_procs ∧
    ((Tacotron2.train_on_batch_events hpTwo).filter
        (fun e => Tacotron2.isAllReduceGrads e || Tacotron2.isUpdate e) =
      [Tacotron2.Event.allReduceGrads true false, Tacotron2.Event.update] ∧
    (VQVAE.trainBatchEvents 0).filter
        (fun e => VQVAE.isAllReduceGrads e || VQVAE.isUpdate e) =
      [VQVAE.Event.allReduceGrads false true, VQVAE.Event.update]) :=
  ⟨by decide, C4_one_gradient_all_reduce_per_batch hpTwo 0 (by decide)⟩

/-- C5 counterexample: a single-worker Tacotron2 training batch performs
one optimizer update but no gradient reduction at all, so the claim that
every training batch performs exactly one gradient reduction fails. -/
theorem C5_single_worker_batch_has_no_reduce :
    (Tacotron2.train_on_batch_events hpOne).filter
      Tacotron2.isAllReduceGrads = [] ∧
    (Tacotron2.train_on_batch_events hpOne).filter Tacotron2.isUpdate =
      [Tacotron2.Event.update] := by
  decide

namespace VQVAE

/-- The validate trace contains no backward pass, no gradient reduction,
no weight decay and no optimizer update. -/
theorem validate_no_param_mutation {P S : Type} (t : Trainer P S)
    (losses : ℕ → ℚ) :
    (validate t losses).2.2.filter isParamMutating = [] := by
  show (List.filter _ (_ ++ _)) = []
  rw [List.filter_append]
  have h : ∀ n : ℕ, ((List.range n).flatMap fun _ => valBatchEvents).filter
      isParamMutating = [] := by
    intro n
    induction n with
    | zero => rfl
    | succ k ih =>
        rw [List.range_succ, List.flatMap_append, List.filter_append, ih]
        rfl
  rw [h]
  rfl

end VQVAE

/-- C5 amended: in both drivers a validation step performs no backward
pass, no gradient reduction and no optimizer update, and the VQ-VAE
validate call returns the trainer state (parameters, solver state,
learning rate) unchanged; every training batch performs exactly one
optimizer update, the VQ-VAE driver performs exactly one gradient
all-reduce per training batch, and the Tacotron2 driver performs exactly
one gradient all-reduce per training batch when n_procs exceeds one and
none otherwise. -/
theorem C5_validation_never_mutates :
    (∀ (P S : Type) (t : VQVAE.Trainer P S) (losses : ℕ → ℚ),
      (VQVAE.validate t losses).1 = t ∧
      (VQVAE.validate t losses).2.2.filter VQVAE.isParamMutating = []) ∧
    (∀ (hp : Tacotron2.HParams) (loss l_net : ℚ),
      (Tacotron2.valid_on_batch hp loss l_net).2.filter
        Tacotron2.isParamMutating = []) ∧
    (∀ i : ℕ, (VQVAE.trainBatchEvents i).filter VQVAE.isAllReduceGrads =
        [VQVAE.Event.allReduceGrads false true] ∧
      (VQVAE.trainBatchEvents i).filter VQVAE.isUpdate =
        [VQVAE.Event.update]) ∧
    (∀ hp : Tacotron2.HParams,
      (Tacotron2.train_on_batch_events hp).filter Tacotron2.isUpdate =
        [Tacotron2.Event.update] ∧
      (Tacotron2.train_on_batch_events hp).filter Tacotron2.isAllReduceGrads =
        (if 1 < hp.n_procs then [Tacotron2.Event.allReduceGrads true false]
         else [])) := by
  refine ⟨?_, ?_, ?_, ?_⟩
  · intro P S t losses
    exact ⟨rfl, VQVAE.validate_no_param_mutation t losses⟩
  · intro hp loss l_net
    by_cases h : 1 < hp.n_procs <;>
      simp [Tacotron2.valid_on_batch, h, Tacotron2.isParamMutating]
  · intro i
    constructor <;> (by_cases hi : i = 0 <;>
      simp [VQVAE.trainBatchEvents, hi, VQVAE.isAllReduceGrads, VQVAE.isUpdate])
  · intro hp
    constructor <;> (by_cases h : 1 < hp.n_procs <;>
      simp [Tacotron2.train_on_batch_events, h, Tacotron2.isAllReduceGrads,
        Tacotron2.isUpdate])

/-- C6 counterexample: the batch [1] has every value inside [0, 1], yet
convert_to_var does not map it with (x - 0.5) / 0.5: the branch condition
np.all(img < 1) is strict, so the value 1 is first divided by 255. -/
theorem C6_boundary_batch_rescaled_twice :
    (∀ x ∈ ([1] : List ℚ), 0 ≤ x ∧ x ≤ 1) ∧
    VQVAE.convert_to_var [1] ≠ [((1 : ℚ) - 1/2) / (1/2)] := by
  refine ⟨by decide, ?_⟩
  norm_num [VQVAE.convert_to_var]

/-- C6 amended: a batch whose values are all strictly below 1 is mapped
entrywise to (x - 0.5) / 0.5; a batch containing a value at least 1 is
first divided by 255 and then rescaled identically; under inputs in
[0, 255] either path lands in [-1, 1]. -/
theorem C6_convert_to_var_ranges (img : List ℚ) :
    ((∀ x ∈ img, x < 1) →
      VQVAE.convert_to_var img = img.map (fun x => (x - 1/2) / (1/2))) ∧
    ((∃ x ∈ img, 1 ≤ x) →
      VQVAE.convert_to_var img = img.map (fun x => (x / 255 - 1/2) / (1/2))) ∧
    ((∀ x ∈ img, 0 ≤ x ∧ x ≤ 255) →
      ∀ y ∈ VQVAE.convert_to_var img, -1 ≤ y ∧ y ≤ 1) := by
  refine ⟨?_, ?_, ?_⟩
  · intro h
    rw [VQVAE.convert_to_var]
    rw [if_pos (by simpa using h)]
  · intro h
    rw [VQVAE.convert_to_var]
    rw [if_neg ?_, List.map_map]
    · rfl
    · simp only [List.all_eq_true, decide_eq_true_eq, not_forall]
      obtain ⟨x, hx, h1⟩ := h
      exact ⟨x, hx, not_lt.mpr h1⟩
  · intro hb y hy
    rw [VQVAE.convert_to_var] at hy
    by_cases hall : img.all (fun x => decide (x < 1))
    · rw [if_pos hall] at hy
      obtain ⟨x, hx, rfl⟩ := List.mem_map.mp hy
      have h1 : x < 1 := by
        have := List.all_eq_true.mp hall x hx
        simpa using this
      have h0 : 0 ≤ x := (hb x hx).1
      constructor <;> [nlinarith; nlinarith]
    · rw [if_neg hall, List.map_map] at hy
      obtain ⟨x, hx, rfl⟩ := List.mem_map.mp hy
      have h0 : 0 ≤ x := (hb x hx).1
      have h255 : x ≤ 255 := (hb x hx).2
      simp only [Function.comp]
      constructor <;> [nlinarith; nlinarith]

/-- C6 witness: the amended statement applied to the concrete batches
[0] (all values strictly below 1) and [255] (a raw byte-range batch). -/
theorem C6_convert_to_var_ranges_witness :
    ((∀ x ∈ ([0] : List ℚ), x < 1) ∧
      VQVAE.convert_to_var [0] = ([0] : List ℚ).map (fun x => (x - 1/2) / (1/2))) ∧
    ((∃ x ∈ ([255] : List ℚ), 1 ≤ x) ∧
      VQVAE.convert_to_var [255] =
        ([255] : List ℚ).map (fun x => (x / 255 - 1/2) / (1/2))) ∧
    ((∀ x ∈ ([255] : List ℚ), 0 ≤ x ∧ x ≤ 255) ∧
      ∀ y ∈ VQVAE.convert_to_var [255], -1 ≤ y ∧ y ≤ 1) :=
  ⟨⟨by decide, (C6_convert_to_var_ranges [0]).1 (by decide)⟩,
   ⟨by decide, (C6_convert_to_var_ranges [255]).2.1 (by decide)⟩,
   ⟨by decide, (C6_convert_to_var_ranges [255]).2.2 (by decide)⟩⟩

/-- C9: in the Tacotron2 driver with more than one worker, the epoch-end
callback all-reduces the accumulated validation loss with division=True
(average across the workers) as its first action, divides the result by
the size of the validation dataloader as its second action, performs no
other loss reduction, and resets the loss accumulator to zero at the
end. -/
theorem C9_validation_loss_reduced_then_divided (hp : Tacotron2.HParams)
    (cur_epoch : ℕ) (loss othersSum : ℚ) (h : 1 < hp.n_procs) :
    (Tacotron2.callback_on_epoch_end hp cur_epoch loss othersSum).1 = 0 ∧
    (Tacotron2.callback_on_epoch_end hp cur_epoch loss othersSum).2.1 =
      ((loss + othersSum) / (hp.n_procs : ℚ)) / (hp.valid_size : ℚ) ∧
    (Tacotron2.callback_on_epoch_end hp cur_epoch loss othersSum).2.2.take 2 =
      [Tacotron2.Event.allReduceLoss true false,
       Tacotron2.Event.divideLossBySize] ∧
    (Tacotron2.callback_on_epoch_end hp cur_epoch loss othersSum).2.2.filter
        Tacotron2.isAllReduceLoss =
      [Tacotron2.Event.allReduceLoss true false] ∧
    (Tacotron2.callback_on_epoch_end hp cur_epoch loss othersSum).2.2.getLast? =
      some Tacotron2.Event.zeroLoss := by
  refine ⟨rfl, ?_, ?_, ?_, ?_⟩
  · simp only [Tacotron2.callback_on_epoch_end]
    rw [if_pos h]
  · simp only [Tacotron2.callback_on_epoch_end]
    rw [if_pos h]
    rfl
  · simp only [Tacotron2.callback_on_epoch_end]
    rw [if_pos h]
    simp only [List.filter_append, List.append_assoc]
    have hr : (if hp.rank = 0 then
        [Tacotron2.Event.monitorInfo] ++
          (if cur_epoch % hp.epochs_per_checkpoint = 0 then
            [Tacotron2.Event.saveArtifacts] else [])
        else ([] : List Tacotron2.Event)).filter Tacotron2.isAllReduceLoss = [] := by
      split
      · rw [List.filter_append]
        split <;> rfl
      · rfl
    rw [hr]
    rfl
  · simp only [Tacotron2.callback_on_epoch_end]
    rw [if_pos h, List.getLast?_concat]

/-- C9 witness: the theorem applied at two workers, epoch 0, local loss 3
and combined remote loss 5. -/
theorem C9_validation_loss_reduced_then_divided_witness :
    1 < hpTwo.n_procs ∧
    ((Tacotron2.callback_on_epoch_end hpTwo 0 3 5).1 = 0 ∧
    (Tacotron2.callback_on_epoch_end hpTwo 0 3 5).2.1 =
      (((3 : ℚ) + 5) / (hpTwo.n_procs : ℚ)) / (hpTwo.valid_size : ℚ) ∧
    (Tacotron2.callback_on_epoch_end hpTwo 0 3 5).2.2.take 2 =
      [Tacotron2.Event.allReduceLoss true false,
       Tacotron2.Event.divideLossBySize] ∧
    (Tacotron2.callback_on_epoch_end hpTwo 0 3 5).2.2.filter
        Tacotron2.isAllReduceLoss =
      [Tacotron2.Event.allReduceLoss true false] ∧
    (Tacotron2.callback_on_epoch_end hpTwo 0 3 5).2.2.getLast? =
      some Tacotron2.Event.zeroLoss) :=
  ⟨by decide, C9_validation_loss_reduced_then_divided hpTwo 0 3 5 (by decide)⟩
